import Mathlib

/-!
Shallow embedding of the Sparkify data-lake ETL job (etl.py) and proofs of
the spec's claims about it.

Modelling conventions:
* A Spark dataframe is a list of records in row order; a single logical
  partition is assumed, so row order is the file order of the input.
* monotonically_increasing_id is modelled as consecutive indices 0, 1, ...
  attached in row order (Spark guarantees the generated ids are unique and
  increasing within a partition).
* dropDuplicates keeps the first occurrence of each duplicate group.
* Nullable JSON fields are Option values; numeric JSON fields that the job
  never does arithmetic on (duration, latitude, longitude, length) are Rat.
* Epoch-millisecond timestamps are Nat; the udf int(int(x) / 1000) is
  embedded as exact integer floor division, which agrees with Python's
  float division on the epoch-millisecond range of the data.
* datetime.fromtimestamp is taken in UTC and embedded with the standard
  civil-from-days calendar algorithm; date_format(_, "E") and weekofyear
  are embedded from their documented semantics (day-name abbreviation,
  ISO-8601 week number).
* The file sql_queries.py is imported by etl.py but is not part of the
  sources; each of its four query strings is embedded as a definition whose
  doc comment starts with "Modelled from the spec:".
-/

/-- Keep-first deduplication worker: drops an element whenever its key was
already seen, otherwise keeps it and records its key. -/
def ddGo {α β : Type} [DecidableEq β] (key : α → β) (seen : List β) : List α → List α
  | [] => []
  | x :: xs => if key x ∈ seen then ddGo key seen xs else x :: ddGo key (key x :: seen) xs

/-- Spark dropDuplicates on a key: keeps the first occurrence of each key. -/
def dropDuplicatesBy {α β : Type} [DecidableEq β] (key : α → β) (l : List α) : List α :=
  ddGo key [] l

/-- Spark withColumn(monotonically_increasing_id): pairs each row with a
strictly increasing id, starting from n. -/
def withMonotonicId {α : Type} : Nat → List α → List (α × Nat)
  | _, [] => []
  | n, x :: xs => (x, n) :: withMonotonicId (n + 1) xs

/-- A civil date-time (year, month, day, hour, minute, second). -/
structure DateTime where
  year : Int
  month : Nat
  day : Nat
  hour : Nat
  minute : Nat
  second : Nat
deriving DecidableEq

/-- Days since 1970-01-01 to (year, month, day), the standard civil-from-days
algorithm over 400-year eras. -/
def civilFromDays (z0 : Int) : Int × Nat × Nat :=
  let z : Int := z0 + 719468
  let era : Int := (if 0 ≤ z then z else z - 146096) / 146097
  let doe : Nat := (z - era * 146097).toNat
  let yoe : Nat := (doe - doe / 1460 + doe / 36524 - doe / 146096) / 365
  let doy : Nat := doe - (365 * yoe + yoe / 4 - yoe / 100)
  let mp : Nat := (5 * doy + 2) / 153
  let d : Nat := doy - (153 * mp + 2) / 5 + 1
  let m : Nat := if mp < 10 then mp + 3 else mp - 9
  (era * 400 + yoe + (if m ≤ 2 then 1 else 0), m, d)

/-- Python datetime.fromtimestamp on a non-negative epoch-second value,
taken in UTC. -/
def fromtimestamp (t : Nat) : DateTime :=
  let c := civilFromDays (Int.ofNat (t / 86400))
  let sod := t % 86400
  { year := c.1, month := c.2.1, day := c.2.2,
    hour := sod / 3600, minute := sod % 3600 / 60, second := sod % 60 }

/-- Day-name abbreviations produced by date_format(_, "E"), indexed from
Thursday because 1970-01-01 was a Thursday. -/
def dayNames : List String := ["Thu", "Fri", "Sat", "Sun", "Mon", "Tue", "Wed"]

/-- date_format(_, "E") applied to the datetime of an epoch-second value. -/
def weekdayName (t : Nat) : String :=
  dayNames.getD (t / 86400 % 7) ""

/-- ISO weekday (Mon = 1 .. Sun = 7) of an epoch-day count; day 0 is a
Thursday. -/
def isoWeekday (days : Nat) : Nat :=
  (days + 3) % 7 + 1

/-- Gregorian leap-year test. -/
def isLeap (y : Int) : Bool :=
  (y % 4 == 0 && y % 100 != 0) || y % 400 == 0

/-- Cumulative day count before each month (non-leap year). -/
def monthOffsets : List Nat := [0, 31, 59, 90, 120, 151, 181, 212, 243, 273, 304, 334]

/-- Ordinal day of the year of a civil date. -/
def dayOfYear (y : Int) (m d : Nat) : Nat :=
  monthOffsets.getD (m - 1) 0 + d + (if isLeap y && 2 < m then 1 else 0)

/-- Number of ISO-8601 weeks in a year (52 or 53). -/
def weeksInISOYear (y : Int) : Nat :=
  let p : Int → Int := fun v => (v + v / 4 - v / 100 + v / 400) % 7
  if p y == 4 || p (y - 1) == 3 then 53 else 52

/-- Spark weekofyear (ISO-8601 week number) of the datetime of an
epoch-second value. -/
def weekofyear (t : Nat) : Nat :=
  let days := t / 86400
  let c := civilFromDays (Int.ofNat days)
  let w : Int := ((dayOfYear c.1 c.2.1 c.2.2 : Int) - (isoWeekday days : Int) + 10) / 7
  if w < 1 then weeksInISOYear (c.1 - 1)
  else if (weeksInISOYear c.1 : Int) < w then 1
  else w.toNat

/-- A song-metadata JSON record (fields used by etl.py). -/
structure SongMeta where
  song_id : String
  title : Option String
  artist_id : String
  artist_name : String
  year : Int
  duration : Rat
  artist_location : Option String
  artist_latitude : Option Rat
  artist_longitude : Option Rat
deriving DecidableEq

/-- An event-log JSON record (fields used by etl.py). -/
structure Event where
  userId : String
  firstName : String
  lastName : String
  gender : String
  level : String
  ts : Nat
  artist : String
  song : String
  length : Rat
  location : String
  sessionId : Nat
  userAgent : String
  page : String
deriving DecidableEq

/-- A row of the songs output: the six selected song columns. -/
structure SongRow where
  song_id : String
  title : Option String
  artist_id : String
  artist_name : String
  year : Int
  duration : Rat
deriving DecidableEq

/-- A row of the artists output: the five selected artist columns (the
surrogate id column is not part of this type). -/
structure ArtistRow where
  artist_id : String
  artist_name : String
  artist_location : Option String
  artist_latitude : Option Rat
  artist_longitude : Option Rat
deriving DecidableEq

/-- A filtered log row: the twelve columns selected from the event JSON. -/
structure LogRow where
  userId : String
  firstName : String
  lastName : String
  gender : String
  level : String
  ts : Nat
  artist : String
  song : String
  length : Rat
  location : String
  sessionId : Nat
  userAgent : String
deriving DecidableEq

/-- A row of the users output. -/
structure UserRow where
  userId : String
  firstName : String
  lastName : String
  gender : String
  level : String
deriving DecidableEq

/-- A row of the time output: exactly the six columns written by etl.py;
there is no start_time field. -/
structure TimeRow where
  hour : Nat
  day : Nat
  week : Nat
  month : Nat
  year : Int
  weekday : String
deriving DecidableEq

/-- A songplay fact row after the ts and datetime columns are dropped. -/
structure SongplayRow where
  songplay_id : Nat
  start_time : Nat
  userId : String
  level : String
  song_id : Option String
  artist_id : Option String
  sessionId : Nat
  location : String
  userAgent : String
  year : Int
  month : Nat
deriving DecidableEq

/-- One persisted write of an output relation, recording the relation name,
partition columns, file format, save mode and destination path. Overwrite
mode replaces prior output at the path rather than merging with it. -/
structure WriteSpec where
  name : String
  partitionBy : List String
  format : String
  mode : String
  path : String
deriving DecidableEq

/-- Result of process_song_data: the path it reads, the two relations it
builds, and the writes it performs. -/
structure SongDataResult where
  readPath : String
  songs : List SongRow
  artists : List ArtistRow
  writes : List WriteSpec
deriving DecidableEq

/-- Result of process_log_data: the path it reads, the three relations it
builds, and the writes it performs. -/
structure LogDataResult where
  readPath : String
  songplays : List SongplayRow
  users : List UserRow
  time : List TimeRow
  writes : List WriteSpec
deriving DecidableEq

/-- The hardcoded song-data glob of etl.py line 44. -/
def song_data_path : String := "s3a://udacity-dend/song_data/A/A/*/*.json"

/-- df.select(song_columns) on one metadata record. -/
def selectSongColumns (r : SongMeta) : SongRow :=
  { song_id := r.song_id, title := r.title, artist_id := r.artist_id,
    artist_name := r.artist_name, year := r.year, duration := r.duration }

/-- df.select(artist_columns) on one metadata record. -/
def selectArtistColumns (r : SongMeta) : ArtistRow :=
  { artist_id := r.artist_id, artist_name := r.artist_name,
    artist_location := r.artist_location, artist_latitude := r.artist_latitude,
    artist_longitude := r.artist_longitude }

/-- Modelled from the spec: the artist_select_distinct query of the missing
sql_queries.py deduplicates the sparkify view by artist_id, keeping the first
occurrence in surrogate-id order (the input pairs carry the monotonically
increasing ids in increasing row order), and discards the id column. -/
def artist_select_distinct (rows : List (ArtistRow × Nat)) : List ArtistRow :=
  (dropDuplicatesBy (fun p => p.1.artist_id) rows).map Prod.fst

/-- process_song_data of etl.py: reads the hardcoded song-data path (the
input_base_path argument is unused by the source), builds the deduplicated
songs and artists relations, and writes them in overwrite mode. -/
def process_song_data (input_base_path : String) (output_base_path : String)
    (df : List SongMeta) : SongDataResult :=
  let song_df := dropDuplicatesBy id (df.map selectSongColumns)
  let artist_with_id := withMonotonicId 0 (df.map selectArtistColumns)
  let artist_df := artist_select_distinct artist_with_id
  { readPath := song_data_path,
    songs := song_df,
    artists := artist_df,
    writes :=
      [{ name := "songs", partitionBy := ["year", "artist_name"], format := "parquet",
         mode := "overwrite", path := output_base_path ++ "songs" },
       { name := "artists", partitionBy := [], format := "parquet",
         mode := "overwrite", path := output_base_path ++ "artists" }] }

/-- df.select(columns) on one event record. -/
def selectLogColumns (e : Event) : LogRow :=
  { userId := e.userId, firstName := e.firstName, lastName := e.lastName,
    gender := e.gender, level := e.level, ts := e.ts, artist := e.artist,
    song := e.song, length := e.length, location := e.location,
    sessionId := e.sessionId, userAgent := e.userAgent }

/-- A songplay row of the joined logs view, before the start_time,
songplay_id, year and month columns are added and ts is dropped. -/
structure SongplayStage where
  ts : Nat
  userId : String
  level : String
  song_id : Option String
  artist_id : Option String
  sessionId : Nat
  location : String
  userAgent : String
deriving DecidableEq

/-- The first song-metadata row whose title and artist name exactly match
the event's song and artist text. -/
def matchSong (songs : List SongRow) (r : LogRow) : Option SongRow :=
  songs.find? (fun s => s.title == some r.song && s.artist_name == r.artist)

/-- Modelled from the spec: the get_songplay_log_data query of the missing
sql_queries.py derives one songplay row per qualifying event in the sparkify
view, enriched with the song_id and artist_id of the song-metadata row that
exactly matches on artist name and song title (null when no row matches; the
spec's data model requires one fact row per qualifying event, so events
without a match are kept with null identifiers). -/
def get_songplay_log_data (songs : List SongRow) (logs : List (LogRow × Nat)) :
    List SongplayStage :=
  logs.map (fun p =>
    let m := matchSong songs p.1
    { ts := p.1.ts, userId := p.1.userId, level := p.1.level,
      song_id := m.map (fun s => s.song_id), artist_id := m.map (fun s => s.artist_id),
      sessionId := p.1.sessionId, location := p.1.location, userAgent := p.1.userAgent })

/-- Modelled from the spec: the aggregate_songplay_data query of the missing
sql_queries.py selects the songplay fact columns from the logs view; the spec
fixes one fact row per qualifying event, so no rows are added or removed. -/
def aggregate_songplay_data (l : List SongplayStage) : List SongplayStage := l

/-- The withColumn chain of etl.py lines 93-95 applied to one id-paired
songplay row: start_time is the udf int(int(ts) / 1000), songplay_id is the
monotonically increasing id, year and month come from the datetime of
start_time, and the datetime and ts columns are dropped. -/
def toSongplayRow (p : SongplayStage × Nat) : SongplayRow :=
  let start_time := p.1.ts / 1000
  let dt := fromtimestamp start_time
  { songplay_id := p.2, start_time := start_time, userId := p.1.userId,
    level := p.1.level, song_id := p.1.song_id, artist_id := p.1.artist_id,
    sessionId := p.1.sessionId, location := p.1.location,
    userAgent := p.1.userAgent, year := dt.year, month := dt.month }

/-- Projection of a log row to a user row. -/
def toUserRow (r : LogRow) : UserRow :=
  { userId := r.userId, firstName := r.firstName, lastName := r.lastName,
    gender := r.gender, level := r.level }

/-- Modelled from the spec: the user_select_distinct query of the missing
sql_queries.py keeps one row per distinct userId of the sparkify view, and
for duplicate userIds the last-seen row (largest surrogate id) wins. -/
def user_select_distinct (logs : List (LogRow × Nat)) : List UserRow :=
  ((dropDuplicatesBy (fun p => p.1.userId) logs.reverse).map (fun p => toUserRow p.1)).reverse

/-- The time-dimension select of etl.py lines 101-109 applied to one distinct
start_time value: the datetime column is added, the six components are
selected, and the datetime column is dropped. -/
def toTimeRow (t : Nat) : TimeRow :=
  let dt := fromtimestamp t
  { hour := dt.hour, day := dt.day, week := weekofyear t,
    month := dt.month, year := dt.year, weekday := weekdayName t }

/-- process_log_data of etl.py: reads the log-data glob under
input_base_path, filters to page == NextSong, derives the songplays, users
and time relations, and writes them in overwrite mode. The songs argument is
the temporary view registered by process_song_data. -/
def process_log_data (input_base_path : String) (output_base_path : String)
    (events : List Event) (songs : List SongRow) : LogDataResult :=
  let log_rows := (events.filter (fun e => e.page == "NextSong")).map selectLogColumns
  let log_df := withMonotonicId 0 log_rows
  let stage := aggregate_songplay_data (get_songplay_log_data songs log_df)
  let songplay_df := (withMonotonicId 0 stage).map toSongplayRow
  let user_df := user_select_distinct log_df
  let time_df := (dropDuplicatesBy id (songplay_df.map (fun f => f.start_time))).map toTimeRow
  { readPath := input_base_path ++ "log_data/*/*/*.json",
    songplays := songplay_df,
    users := user_df,
    time := time_df,
    writes :=
      [{ name := "users", partitionBy := [], format := "parquet",
         mode := "overwrite", path := output_base_path ++ "users" },
       { name := "time", partitionBy := ["year", "month"], format := "parquet",
         mode := "overwrite", path := output_base_path ++ "time" },
       { name := "songplays", partitionBy := ["year", "month"], format := "parquet",
         mode := "overwrite", path := output_base_path ++ "songplays" }] }

/-- An ini-style configuration file: named sections of key-value pairs. -/
def IniFile : Type := List (String × List (String × String))

/-- Section lookup, as configparser's config\x5b"AWS"\x5d. -/
def sectionLookup (cfg : IniFile) (s : String) : Option (List (String × String)) :=
  (cfg.find? (fun p => p.1 == s)).map Prod.snd

/-- Key lookup within a section. -/
def keyLookup (sec : List (String × String)) (k : String) : Option String :=
  (sec.find? (fun p => p.1 == k)).map Prod.snd

/-- The faults main can raise while reading configuration: a missing dl.cfg
file, or a missing section or key. -/
inductive ConfigError where
  | fileNotFound : ConfigError
  | keyError : String → ConfigError
deriving DecidableEq

/-- Lines 128-131 of etl.py: open dl.cfg (raising when the file is absent)
and read the two AWS credential keys (raising on a missing section or key).
No handler exists, so each fault propagates. -/
def readAwsConfig (file : Option IniFile) : Except ConfigError (String × String) :=
  match file with
  | none => Except.error ConfigError.fileNotFound
  | some cfg =>
    match sectionLookup cfg "AWS" with
    | none => Except.error (ConfigError.keyError "AWS")
    | some sec =>
      match keyLookup sec "AWS_ACCESS_KEY_ID" with
      | none => Except.error (ConfigError.keyError "AWS_ACCESS_KEY_ID")
      | some akid =>
        match keyLookup sec "AWS_SECRET_ACCESS_KEY" with
        | none => Except.error (ConfigError.keyError "AWS_SECRET_ACCESS_KEY")
        | some sk => Except.ok (akid, sk)

/-- A completed run: the exported credential environment variables and the
results of both phases. -/
structure JobRun where
  env : List (String × String)
  song : SongDataResult
  log : LogDataResult
deriving DecidableEq

/-- mainJob, the main function of etl.py (renamed because a Lean definition called main must be an executable entry point): read configuration (any fault aborts the run before any
input is read or output written), then run the two phases in order with the
hardcoded input and output base paths. -/
def mainJob (file : Option IniFile) (songData : List SongMeta) (events : List Event) :
    Except ConfigError JobRun :=
  match readAwsConfig file with
  | Except.error e => Except.error e
  | Except.ok creds =>
    let input_data := "s3a://udacity-dend/"
    let output_data := "s3a://despotakis-data-lake/"
    let sr := process_song_data input_data output_data songData
    let lr := process_log_data input_data output_data events sr.songs
    Except.ok
      { env := [("AWS_ACCESS_KEY_ID", creds.1), ("AWS_SECRET_ACCESS_KEY", creds.2)],
        song := sr, log := lr }

/-- The writes performed by a run: none when the run aborted. -/
def jobWrites : Except ConfigError JobRun → List WriteSpec
  | Except.error _ => []
  | Except.ok r => r.song.writes ++ r.log.writes

/-- The input paths read by a run: none when the run aborted. -/
def jobReads : Except ConfigError JobRun → List String
  | Except.error _ => []
  | Except.ok r => [r.song.readPath, r.log.readPath]

/-- Every element kept by ddGo comes from the input list. -/
theorem mem_of_mem_ddGo {α β : Type} [DecidableEq β] (key : α → β) :
    ∀ (l : List α) (seen : List β) (x : α), x ∈ ddGo key seen l → x ∈ l := by
  intro l
  induction l with
  | nil => intro seen x h; simp [ddGo] at h
  | cons a xs ih =>
    intro seen x h
    simp only [ddGo] at h
    by_cases hk : key a ∈ seen
    · rw [if_pos hk] at h
      exact List.mem_cons_of_mem _ (ih _ _ h)
    · rw [if_neg hk] at h
      rcases List.mem_cons.mp h with h | h
      · exact h ▸ List.mem_cons_self _ _
      · exact List.mem_cons_of_mem _ (ih _ _ h)

/-- The key of every element kept by ddGo was not already seen. -/
theorem key_not_seen_of_mem_ddGo {α β : Type} [DecidableEq β] (key : α → β) :
    ∀ (l : List α) (seen : List β) (x : α), x ∈ ddGo key seen l → key x ∉ seen := by
  intro l
  induction l with
  | nil => intro seen x h; simp [ddGo] at h
  | cons a xs ih =>
    intro seen x h
    simp only [ddGo] at h
    by_cases hk : key a ∈ seen
    · rw [if_pos hk] at h
      exact ih _ _ h
    · rw [if_neg hk] at h
      rcases List.mem_cons.mp h with h | h
      · exact h ▸ hk
      · intro hmem
        exact ih _ _ h (List.mem_cons_of_mem _ hmem)

/-- The keys of the ddGo output are pairwise distinct. -/
theorem nodup_keys_ddGo {α β : Type} [DecidableEq β] (key : α → β) :
    ∀ (l : List α) (seen : List β), ((ddGo key seen l).map key).Nodup := by
  intro l
  induction l with
  | nil => intro seen; simp [ddGo]
  | cons a xs ih =>
    intro seen
    simp only [ddGo]
    by_cases hk : key a ∈ seen
    · rw [if_pos hk]; exact ih seen
    · rw [if_neg hk]
      rw [List.map_cons, List.nodup_cons]
      refine ⟨?_, ih _⟩
      intro hmem
      rcases List.mem_map.mp hmem with ⟨y, hy, hky⟩
      exact key_not_seen_of_mem_ddGo key _ _ _ hy (hky ▸ List.mem_cons_self _ _)

/-- Every element kept by ddGo is the first element of the input with its
key. -/
theorem find?_eq_of_mem_ddGo {α β : Type} [DecidableEq β] (key : α → β) :
    ∀ (l : List α) (seen : List β) (x : α), x ∈ ddGo key seen l →
      l.find? (fun y => decide (key y = key x)) = some x := by
  intro l
  induction l with
  | nil => intro seen x h; simp [ddGo] at h
  | cons a xs ih =>
    intro seen x h
    simp only [ddGo] at h
    by_cases hk : key a ∈ seen
    · rw [if_pos hk] at h
      have hne : key a ≠ key x := by
        intro he
        exact key_not_seen_of_mem_ddGo key _ _ _ h (he ▸ hk)
      rw [List.find?_cons_of_neg _ (by simpa using hne)]
      exact ih _ _ h
    · rw [if_neg hk] at h
      rcases List.mem_cons.mp h with h | h
      · subst h
        rw [List.find?_cons_of_pos _ (by simp)]
      · have hne : key a ≠ key x := by
          intro he
          exact key_not_seen_of_mem_ddGo key _ _ _ h (he ▸ List.mem_cons_self _ _)
        rw [List.find?_cons_of_neg _ (by simpa using hne)]
        exact ih _ _ h

/-- Every unseen key occurring in the input also occurs among the output
keys of ddGo. -/
theorem exists_mem_ddGo {α β : Type} [DecidableEq β] (key : α → β) :
    ∀ (l : List α) (seen : List β) (x : α), x ∈ l → key x ∉ seen →
      ∃ y, y ∈ ddGo key seen l ∧ key y = key x := by
  intro l
  induction l with
  | nil => intro seen x h; simp at h
  | cons a xs ih =>
    intro seen x h hseen
    simp only [ddGo]
    by_cases hk : key a ∈ seen
    · rw [if_pos hk]
      rcases List.mem_cons.mp h with h | h
      · exact absurd (h ▸ hseen) (fun hc => hc hk)
      · exact ih _ _ h hseen
    · rw [if_neg hk]
      rcases List.mem_cons.mp h with h | h
      · exact ⟨a, List.mem_cons_self _ _, by rw [h]⟩
      · by_cases hx : key x = key a
        · exact ⟨a, List.mem_cons_self _ _, hx.symm⟩
        · have : key x ∉ key a :: seen := by
            intro hc
            rcases List.mem_cons.mp hc with hc | hc
            · exact hx hc
            · exact hseen hc
          rcases ih (key a :: seen) x h this with ⟨y, hy, hky⟩
          exact ⟨y, List.mem_cons_of_mem _ hy, hky⟩

/-- Membership in full-row deduplication is membership in the input. -/
theorem mem_dropDuplicatesBy_id {α : Type} [DecidableEq α] (l : List α) (x : α) :
    x ∈ dropDuplicatesBy id l ↔ x ∈ l := by
  constructor
  · exact mem_of_mem_ddGo id l [] x
  · intro h
    rcases exists_mem_ddGo id l [] x h (List.not_mem_nil _) with ⟨y, hy, hxy⟩
    have : y = x := hxy
    exact this ▸ hy

/-- Full-row deduplication yields a duplicate-free list. -/
theorem nodup_dropDuplicatesBy_id {α : Type} [DecidableEq α] (l : List α) :
    (dropDuplicatesBy id l).Nodup := by
  have h := nodup_keys_ddGo (α := α) id l []
  rwa [List.map_id] at h

/-- The length of full-row deduplication is the number of distinct values of
the input. -/
theorem length_dropDuplicatesBy_id {α : Type} [DecidableEq α] (l : List α) :
    (dropDuplicatesBy id l).length = l.toFinset.card := by
  have hfin : (dropDuplicatesBy id l).toFinset = l.toFinset := by
    ext x
    simp only [List.mem_toFinset]
    exact mem_dropDuplicatesBy_id l x
  rw [← hfin, List.toFinset_card_of_nodup (nodup_dropDuplicatesBy_id l)]

/-- Dropping the ids of an id-paired deduplication yields the deduplication
of the underlying list. -/
theorem ddGo_withMonotonicId_fst {α β : Type} [DecidableEq β] (key : α → β) :
    ∀ (l : List α) (n : Nat) (seen : List β),
      (ddGo (fun p => key p.1) seen (withMonotonicId n l)).map Prod.fst =
        ddGo key seen l := by
  intro l
  induction l with
  | nil => intro n seen; simp [withMonotonicId, ddGo]
  | cons a xs ih =>
    intro n seen
    simp only [withMonotonicId, ddGo]
    by_cases hk : key a ∈ seen
    · rw [if_pos hk, if_pos hk]
      exact ih _ _
    · rw [if_neg hk, if_neg hk, List.map_cons]
      rw [ih _ _]

/-- The first components of id-paired rows come from the input list. -/
theorem fst_mem_of_mem_withMonotonicId {α : Type} :
    ∀ (l : List α) (n : Nat) (p : α × Nat), p ∈ withMonotonicId n l → p.1 ∈ l := by
  intro l
  induction l with
  | nil => intro n p h; simp [withMonotonicId] at h
  | cons a xs ih =>
    intro n p h
    simp only [withMonotonicId] at h
    rcases List.mem_cons.mp h with h | h
    · rw [h]; exact List.mem_cons_self _ _
    · exact List.mem_cons_of_mem _ (ih _ _ h)

/-- Every id assigned from n on is at least n. -/
theorem le_snd_of_mem_withMonotonicId {α : Type} :
    ∀ (l : List α) (n : Nat) (p : α × Nat), p ∈ withMonotonicId n l → n ≤ p.2 := by
  intro l
  induction l with
  | nil => intro n p h; simp [withMonotonicId] at h
  | cons a xs ih =>
    intro n p h
    simp only [withMonotonicId] at h
    rcases List.mem_cons.mp h with h | h
    · rw [h]
    · exact Nat.le_of_succ_le (ih _ _ h)

/-- The ids assigned by withMonotonicId are pairwise distinct. -/
theorem nodup_snd_withMonotonicId {α : Type} :
    ∀ (l : List α) (n : Nat), ((withMonotonicId n l).map Prod.snd).Nodup := by
  intro l
  induction l with
  | nil => intro n; simp [withMonotonicId]
  | cons a xs ih =>
    intro n
    simp only [withMonotonicId, List.map_cons]
    rw [List.nodup_cons]
    refine ⟨?_, ih _⟩
    intro hmem
    rcases List.mem_map.mp hmem with ⟨p, hp, hpn⟩
    have := le_snd_of_mem_withMonotonicId _ _ _ hp
    omega

/-- Every songplay fact row traces back to a NextSong event whose fields it
carries, with start_time the floor of the event timestamp over 1000. -/
theorem songplay_source (i o : String) (events : List Event) (songs : List SongRow)
    (f : SongplayRow) (hf : f ∈ (process_log_data i o events songs).songplays) :
    ∃ e, e ∈ events ∧ e.page = "NextSong" ∧ f.userId = e.userId ∧
      f.level = e.level ∧ f.start_time = e.ts / 1000 := by
  simp only [process_log_data, aggregate_songplay_data, get_songplay_log_data,
    List.map_map] at hf
  rcases List.mem_map.mp hf with ⟨p, hp, hfp⟩
  obtain ⟨p1, pid⟩ := p
  have hstage := fst_mem_of_mem_withMonotonicId _ _ _ hp
  rcases List.mem_map.mp hstage with ⟨q, hq, hgq⟩
  obtain ⟨q1, qid⟩ := q
  have hlr := fst_mem_of_mem_withMonotonicId _ _ _ hq
  rcases List.mem_map.mp hlr with ⟨e, he, hse⟩
  rcases List.mem_filter.mp he with ⟨hev, hpage⟩
  subst hfp
  simp only at hgq hse
  subst hgq
  subst hse
  exact ⟨e, hev, by simpa using hpage, rfl, rfl, rfl⟩

/-- Every user row traces back to a NextSong event whose selected columns it
projects. -/
theorem user_source (i o : String) (events : List Event) (songs : List SongRow)
    (u : UserRow) (hu : u ∈ (process_log_data i o events songs).users) :
    ∃ e, e ∈ events ∧ e.page = "NextSong" ∧ u = toUserRow (selectLogColumns e) := by
  simp only [process_log_data, user_select_distinct] at hu
  rw [List.mem_reverse] at hu
  rcases List.mem_map.mp hu with ⟨p, hp, hup⟩
  have hp2 := mem_of_mem_ddGo _ _ _ _ hp
  rw [List.mem_reverse] at hp2
  have hp3 := fst_mem_of_mem_withMonotonicId _ _ _ hp2
  rcases List.mem_map.mp hp3 with ⟨e, he, hse⟩
  rcases List.mem_filter.mp he with ⟨hev, hpage⟩
  exact ⟨e, hev, by simpa using hpage, by rw [← hup, hse]⟩

/-- The single metadata record of the end-to-end scenario; fields the
scenario leaves unspecified are null. -/
def c1_meta : SongMeta :=
  { song_id := "S1", title := none, artist_id := "A1", artist_name := "Foo",
    year := 2000, duration := 200, artist_location := none,
    artist_latitude := none, artist_longitude := none }

/-- The single event record of the end-to-end scenario; fields the scenario
leaves unspecified take arbitrary concrete values. -/
def c1_event : Event :=
  { userId := "1", firstName := "Ann", lastName := "Lee", gender := "F",
    level := "free", ts := 1000000, artist := "Foo", song := "Bar",
    length := 200, location := "Home", sessionId := 7, userAgent := "agent",
    page := "NextSong" }

/-- A well-formed configuration file for running the whole job. -/
def c1_cfg : IniFile :=
  [("AWS", [("AWS_ACCESS_KEY_ID", "key"), ("AWS_SECRET_ACCESS_KEY", "secret")])]

/-- A second metadata record sharing the artist_id A1 of the scenario record
but differing in every other artist column: a duplicate for the artist
deduplication. -/
def c3_meta2 : SongMeta :=
  { song_id := "S2", title := some "Baz", artist_id := "A1", artist_name := "Foo2",
    year := 2001, duration := 100, artist_location := some "elsewhere",
    artist_latitude := none, artist_longitude := none }

/-- C1: with exactly one metadata record (song S1 by artist A1 named Foo,
year 2000, duration 200.0) and exactly one event (page NextSong, artist Foo,
song Bar, ts 1000000, userId 1, level free), running the whole job
(process_song_data and then process_log_data, as mainJob does) produces
exactly one songplay fact row, whose start_time is 1000, and exactly one
user row, whose userId is 1 and whose level is free. -/
theorem c1_end_to_end_single_record :
    (mainJob (some c1_cfg) [c1_meta] [c1_event]).map
        (fun r => (r.log.songplays.map (fun f => f.start_time),
                   r.log.users.map (fun u => (u.userId, u.level)))) =
      Except.ok ([1000], [("1", "free")]) := by
  rfl

/-- C2: every songplay fact row comes from some NextSong event whose
epoch-millisecond timestamp ts satisfies start_time = floor(ts / 1000)
(Nat division is floor division). -/
theorem c2_start_time_is_floor_ts_div_1000 (i o : String) (events : List Event)
    (songs : List SongRow) (f : SongplayRow)
    (hf : f ∈ (process_log_data i o events songs).songplays) :
    ∃ e, e ∈ events ∧ e.page = "NextSong" ∧ f.start_time = e.ts / 1000 := by
  rcases songplay_source i o events songs f hf with ⟨e, hev, hpage, _, _, hst⟩
  exact ⟨e, hev, hpage, hst⟩

/-- C2 witness: the scenario event's fact has start_time 1000000 / 1000. -/
theorem c2_start_time_is_floor_ts_div_1000_witness :
    ∃ e, e ∈ [c1_event] ∧ e.page = "NextSong" ∧
      (toSongplayRow
        ({ ts := 1000000, userId := "1", level := "free", song_id := none,
           artist_id := none, sessionId := 7, location := "Home",
           userAgent := "agent" }, 0)).start_time = e.ts / 1000 :=
  c2_start_time_is_floor_ts_div_1000 "in/" "out/" [c1_event] [] _ (by decide)

/-- C3: in the artists output the artist_id values are pairwise distinct,
every output row is the first input occurrence of its artist_id (the one
carrying the smallest monotonically increasing surrogate id), every input
artist_id is represented by a row of the output, and the output row type
carries only the five artist columns, not the surrogate id. -/
theorem c3_artists_dedup_by_artist_id_keep_first (i o : String) (df : List SongMeta) :
    (((process_song_data i o df).artists).map (fun a => a.artist_id)).Nodup ∧
    (∀ a, a ∈ (process_song_data i o df).artists →
      (df.map selectArtistColumns).find?
        (fun r => decide (r.artist_id = a.artist_id)) = some a) ∧
    (∀ r, r ∈ df.map selectArtistColumns →
      ∃ a, a ∈ (process_song_data i o df).artists ∧ a.artist_id = r.artist_id) := by
  have hrw : (process_song_data i o df).artists =
      ddGo (fun r => r.artist_id) [] (df.map selectArtistColumns) := by
    show artist_select_distinct (withMonotonicId 0 (df.map selectArtistColumns)) = _
    simp only [artist_select_distinct, dropDuplicatesBy]
    exact ddGo_withMonotonicId_fst (fun r : ArtistRow => r.artist_id)
      (df.map selectArtistColumns) 0 []
  refine ⟨?_, ?_, ?_⟩
  · rw [hrw]
    exact nodup_keys_ddGo _ _ _
  · intro a ha
    rw [hrw] at ha
    exact find?_eq_of_mem_ddGo _ _ _ _ ha
  · intro r hr
    rw [hrw]
    exact exists_mem_ddGo (fun x : ArtistRow => x.artist_id)
      (df.map selectArtistColumns) [] r hr (List.not_mem_nil _)

/-- C3 witness: with two metadata records sharing artist_id A1, the first
occurrence is the row found for the kept artist, and the duplicated second
record's artist_id is still represented in the output. -/
theorem c3_artists_dedup_by_artist_id_keep_first_witness :
    (([c1_meta, c3_meta2].map selectArtistColumns).find?
      (fun r => decide (r.artist_id = (selectArtistColumns c1_meta).artist_id)) =
      some (selectArtistColumns c1_meta)) ∧
    (∃ a, a ∈ (process_song_data "in/" "out/" [c1_meta, c3_meta2]).artists ∧
      a.artist_id = (selectArtistColumns c3_meta2).artist_id) :=
  ⟨(c3_artists_dedup_by_artist_id_keep_first "in/" "out/" [c1_meta, c3_meta2]).2.1 _
     (by decide),
   (c3_artists_dedup_by_artist_id_keep_first "in/" "out/" [c1_meta, c3_meta2]).2.2 _
     (by decide)⟩

/-- C4: the job performs exactly five writes, in overwrite mode, with the
partition columns and destination paths of the spec: songs by
(year, artist_name), artists unpartitioned, users unpartitioned, time by
(year, month) and songplays by (year, month). -/
theorem c4_five_overwrite_writes (i o : String) (df : List SongMeta)
    (events : List Event) (songs : List SongRow) :
    ((process_song_data i o df).writes ++ (process_log_data i o events songs).writes).map
        (fun w => (w.name, w.partitionBy, w.mode, w.path)) =
      [("songs", ["year", "artist_name"], "overwrite", o ++ "songs"),
       ("artists", [], "overwrite", o ++ "artists"),
       ("users", [], "overwrite", o ++ "users"),
       ("time", ["year", "month"], "overwrite", o ++ "time"),
       ("songplays", ["year", "month"], "overwrite", o ++ "songplays")] := by
  rfl

/-- C5: every user row and every songplay fact row is derived from an event
whose page is NextSong; events with any other page value contribute to
neither output relation. -/
theorem c5_only_nextsong_events (i o : String) (events : List Event)
    (songs : List SongRow) :
    (∀ u, u ∈ (process_log_data i o events songs).users →
      ∃ e, e ∈ events ∧ e.page = "NextSong" ∧ u = toUserRow (selectLogColumns e)) ∧
    (∀ f, f ∈ (process_log_data i o events songs).songplays →
      ∃ e, e ∈ events ∧ e.page = "NextSong" ∧ f.userId = e.userId ∧
        f.level = e.level ∧ f.start_time = e.ts / 1000) := by
  constructor
  · intro u hu
    exact user_source i o events songs u hu
  · intro f hf
    exact songplay_source i o events songs f hf

/-- C5 witness: the scenario's user row is derived from its NextSong
event. -/
theorem c5_only_nextsong_events_witness :
    ∃ e, e ∈ [c1_event] ∧ e.page = "NextSong" ∧
      toUserRow (selectLogColumns c1_event) = toUserRow (selectLogColumns e) :=
  (c5_only_nextsong_events "in/" "out/" [c1_event] []).1 _ (by decide)

/-- C6: the songs output is duplicate-free on the full six-column tuple,
every output row comes from the metadata input, and every distinct input
tuple appears exactly once. -/
theorem c6_songs_full_row_unique (i o : String) (df : List SongMeta) :
    ((process_song_data i o df).songs).Nodup ∧
    (∀ r, r ∈ (process_song_data i o df).songs → r ∈ df.map selectSongColumns) ∧
    (∀ r, r ∈ df.map selectSongColumns →
      ((process_song_data i o df).songs).count r = 1) := by
  have hrw : (process_song_data i o df).songs =
      dropDuplicatesBy id (df.map selectSongColumns) := rfl
  refine ⟨?_, ?_, ?_⟩
  · rw [hrw]
    exact nodup_dropDuplicatesBy_id _
  · intro r hr
    rw [hrw] at hr
    exact (mem_dropDuplicatesBy_id _ _).mp hr
  · intro r hr
    rw [hrw]
    exact List.count_eq_one_of_mem (nodup_dropDuplicatesBy_id _)
      ((mem_dropDuplicatesBy_id _ _).mpr hr)

/-- C6 witness: with a duplicated metadata record the output still counts
its tuple exactly once. -/
theorem c6_songs_full_row_unique_witness :
    ((process_song_data "in/" "out/" [c1_meta, c1_meta]).songs).count
      (selectSongColumns c1_meta) = 1 :=
  (c6_songs_full_row_unique "in/" "out/" [c1_meta, c1_meta]).2.2 _ (by decide)

/-- C7: across all written songplay fact rows, the synthetic songplay_id is
unique: no two rows share one. -/
theorem c7_songplay_id_unique (i o : String) (events : List Event)
    (songs : List SongRow) :
    (((process_log_data i o events songs).songplays).map
      (fun f => f.songplay_id)).Nodup := by
  have h : ((process_log_data i o events songs).songplays).map
      (fun f => f.songplay_id) =
      (withMonotonicId 0 (aggregate_songplay_data (get_songplay_log_data songs
        (withMonotonicId 0 ((events.filter
          (fun e => e.page == "NextSong")).map selectLogColumns))))).map Prod.snd := by
    rw [show (process_log_data i o events songs).songplays =
        (withMonotonicId 0 (aggregate_songplay_data (get_songplay_log_data songs
          (withMonotonicId 0 ((events.filter
            (fun e => e.page == "NextSong")).map selectLogColumns))))).map
          toSongplayRow from rfl]
    rw [List.map_map]
    rfl
  rw [h]
  exact nodup_snd_withMonotonicId _ _

/-- C8: a configuration failure (missing dl.cfg, missing AWS section or
missing credential key) makes the job abort with that error, before any
input is read and before any output relation is written; a missing file in
particular yields the file-not-found fault. -/
theorem c8_config_failure_aborts_before_io (file : Option IniFile)
    (df : List SongMeta) (events : List Event) (err : ConfigError)
    (h : readAwsConfig file = Except.error err) :
    mainJob file df events = Except.error err ∧
    jobWrites (mainJob file df events) = [] ∧
    jobReads (mainJob file df events) = [] ∧
    readAwsConfig none = Except.error ConfigError.fileNotFound := by
  have hm : mainJob file df events = Except.error err := by
    simp only [mainJob, h]
  refine ⟨hm, ?_, ?_, rfl⟩
  · rw [hm]
    rfl
  · rw [hm]
    rfl

/-- C8 witness: a missing configuration file aborts the run with no writes
and no reads. -/
theorem c8_config_failure_aborts_before_io_witness :
    mainJob none [c1_meta] [c1_event] = Except.error ConfigError.fileNotFound ∧
    jobWrites (mainJob none [c1_meta] [c1_event]) = [] ∧
    jobReads (mainJob none [c1_meta] [c1_event]) = [] ∧
    readAwsConfig none = Except.error ConfigError.fileNotFound :=
  c8_config_failure_aborts_before_io none [c1_meta] [c1_event]
    ConfigError.fileNotFound rfl

/-- C9: process_song_data ignores its input_base_path argument entirely: any
two values give identical results, and the path it reads is the hardcoded
song-data glob. -/
theorem c9_input_base_path_ignored (p1 p2 o : String) (df : List SongMeta) :
    process_song_data p1 o df = process_song_data p2 o df ∧
    (process_song_data p1 o df).readPath = song_data_path ∧
    song_data_path = "s3a://udacity-dend/song_data/A/A/*/*.json" :=
  ⟨rfl, rfl, rfl⟩

/-- C10: the time output has one row per distinct start_time value of the
songplay facts, and each row is the six-component decomposition
(hour, day, week, month, year, weekday) of such a start_time; the TimeRow
type has no start_time field, so start_time is not a persisted column. -/
theorem c10_time_one_row_per_start_time (i o : String) (events : List Event)
    (songs : List SongRow) :
    ((process_log_data i o events songs).time).length =
      (((process_log_data i o events songs).songplays).map
        (fun f => f.start_time)).toFinset.card ∧
    ∀ r, r ∈ (process_log_data i o events songs).time →
      ∃ t, t ∈ ((process_log_data i o events songs).songplays).map
        (fun f => f.start_time) ∧ r = toTimeRow t := by
  have hrw : (process_log_data i o events songs).time =
      (dropDuplicatesBy id (((process_log_data i o events songs).songplays).map
        (fun f => f.start_time))).map toTimeRow := rfl
  constructor
  · rw [hrw, List.length_map, length_dropDuplicatesBy_id]
  · intro r hr
    rw [hrw] at hr
    rcases List.mem_map.mp hr with ⟨t, ht, hrt⟩
    exact ⟨t, (mem_dropDuplicatesBy_id _ _).mp ht, hrt.symm⟩

/-- C10 witness: the scenario's single time row decomposes its fact's
start_time 1000. -/
theorem c10_time_one_row_per_start_time_witness :
    ∃ t, t ∈ ((process_log_data "in/" "out/" [c1_event] []).songplays).map
      (fun f => f.start_time) ∧ toTimeRow 1000 = toTimeRow t :=
  (c10_time_one_row_per_start_time "in/" "out/" [c1_event] []).2 _ (by decide)
